import Mathlib

/-
Verification of the URL-cleaning core of the Unalix repository
(src/unalix/_utils.py) against its natural-language specification.

The Python source is shallowly embedded: strings are Lean `String`s
(manipulated through their `List Char` data), fallible stdlib calls
return `Except PyErr`, and the compiled regex ruleset — which ships as
package data outside src/ — is modelled parametrically: a compiled
regex match is a `String → Bool` and a compiled substitution is a
`String → String`.

Stdlib collaborators (urllib.parse, posixpath, the idna codec,
ipaddress) are modelled from CPython 3.9, the interpreter generation
the repository targets.  The models are faithful on ASCII data; spots
where a Unicode-only behaviour is elided are marked in comments.
-/

namespace Unalix

/-- Exceptions that can escape the modelled functions: the repository's
own `InvalidURL` / `InvalidScheme`, plus the stdlib's `ValueError`
(raised by `urllib.parse.urlsplit` on an unbalanced bracket in the
authority, and by `int(h, 16)` on a non-hex string) and `UnicodeError`
(raised by the idna codec). -/
inductive PyErr where
  | invalidURL
  | invalidScheme
  | valueError
  | unicodeError
deriving DecidableEq, Repr

/-- Python `s.split(sep)` for a one-character separator: `"a%b".split("%")`
is `["a", "b"]` and `"".split("%")` is `[""]`. -/
def splitOnChar (sep : Char) : List Char → List (List Char)
  | [] => [[]]
  | c :: cs =>
    let r := splitOnChar sep cs
    if c == sep then [] :: r
    else
      match r with
      | [] => [[c]]
      | h :: t => (c :: h) :: t

/-- Split at the first occurrence of `sep`: the second component starts
with `sep` when `sep` occurs, and is empty otherwise. -/
def breakAt (sep : Char) (cs : List Char) : List Char × List Char :=
  (cs.takeWhile (fun c => !(c == sep)), cs.dropWhile (fun c => !(c == sep)))

/-- Index of the last occurrence of `c`, Python `s.rfind(c)` when present. -/
def rfindIdx (c : Char) (cs : List Char) : Option Nat :=
  (cs.reverse.findIdx? (fun x => x == c)).map (fun j => cs.length - 1 - j)

/-- Python `s.rsplit("@", 1)[-1]`: the suffix after the last `@`, or the
whole string when there is none (used on the netloc by `urldefragauth`). -/
def afterLastAt (cs : List Char) : List Char :=
  (cs.reverse.takeWhile (fun c => !(c == '@'))).reverse

/-- Characters allowed in a URL scheme by `urllib.parse` (`scheme_chars`):
letters, digits, `+`, `-`, `.`. -/
def isSchemeChar (c : Char) : Bool :=
  c.isAlpha || c.isDigit || c == '+' || c == '-' || c == '.'

/-- Python `str.isalnum` restricted to ASCII.  The Python predicate also
accepts non-ASCII alphanumerics; the strings the claims evaluate are
ASCII, where the two agree. -/
def pyIsAlnum (c : Char) : Bool := c.isAlpha || c.isDigit

/-- Value of one hexadecimal digit, both cases, `none` otherwise. -/
def hexVal? (c : Char) : Option Nat :=
  if '0' ≤ c ∧ c ≤ '9' then some (c.toNat - 48)
  else if 'a' ≤ c ∧ c ≤ 'f' then some (c.toNat - 87)
  else if 'A' ≤ c ∧ c ≤ 'F' then some (c.toNat - 55)
  else none

/-- Upper-case hexadecimal digit for `n < 16`, as used by
`urllib.parse.quote` when percent-encoding a byte. -/
def hexUpperDigit (n : Nat) : Char :=
  if n < 10 then Char.ofNat (48 + n) else Char.ofNat (55 + n)

/-- UTF-8 encoding of one character as its byte values (CPython encodes a
`str` to UTF-8 before percent-quoting it). -/
def utf8EncodeChar (c : Char) : List Nat :=
  let n := c.toNat
  if n < 0x80 then [n]
  else if n < 0x800 then
    [0xC0 + n / 64, 0x80 + n % 64]
  else if n < 0x10000 then
    [0xE0 + n / 4096, 0x80 + (n / 64) % 64, 0x80 + n % 64]
  else
    [0xF0 + n / 262144, 0x80 + (n / 4096) % 64, 0x80 + (n / 64) % 64, 0x80 + n % 64]

/-- Line 32 of _utils.py: `UNRESERVED_SET`, the unreserved URI characters. -/
def UNRESERVED_SET : List Char :=
  "ABCDEFGHIJKLMNOPQRSTUVWXYZabcdefghijklmnopqrstuvwxyz0123456789-._~".data

/-- CPython `urllib.parse` `_ALWAYS_SAFE`: characters never quoted by
`quote` regardless of the `safe` argument. -/
def ALWAYS_SAFE : List Char :=
  "ABCDEFGHIJKLMNOPQRSTUVWXYZabcdefghijklmnopqrstuvwxyz0123456789_.-~".data

/-- Line 60 of _utils.py: the `safe` set used by `requote_uri` on the
success path; it contains `%`.  The set is written here as a character
list; it is the string between the quotes at line 60. -/
def safe_with_percent : List Char :=
  "!#$%&".data ++ [Char.ofNat 39] ++ "()*+,/:;=?@[]~".data

/-- Line 61 of _utils.py: the `safe` set used by `requote_uri` on the
fallback path; `%` is absent, so stray percent signs get quoted. -/
def safe_without_percent : List Char :=
  "!#$&".data ++ [Char.ofNat 39] ++ "()*+,/:;=?@[]~".data

/-- Percent-encoding of one character by `urllib.parse.quote`: kept
verbatim when in `_ALWAYS_SAFE` or in the caller's `safe` set (the safe
sets used here are ASCII), otherwise each UTF-8 byte becomes `%XX`. -/
def quoteChar (safe : List Char) (c : Char) : List Char :=
  if ALWAYS_SAFE.contains c || safe.contains c then [c]
  else ((utf8EncodeChar c).map (fun b => ['%', hexUpperDigit (b / 16), hexUpperDigit (b % 16)])).flatten

/-- CPython `urllib.parse.quote(s, safe)` for an ASCII `safe` set. -/
def quote (s : String) (safe : List Char) : String :=
  String.mk ((s.data.map (quoteChar safe)).flatten)

/-- Continuation-byte test for the UTF-8 decoder. -/
def isCont (b : Nat) : Bool := 128 ≤ b && b < 192

/-- Replacement character U+FFFD emitted by `errors="replace"`. -/
def replChar : Char := Char.ofNat 0xFFFD

/-- UTF-8 decoding with `errors="replace"` as performed by
`bytes.decode("utf-8", "replace")`: valid sequences decode normally
(overlong forms, surrogates and values above U+10FFFF are invalid), an
invalid or truncated sequence contributes one U+FFFD for its maximal
valid prefix.  Only reachable through `unquote` on malformed
percent-encodings; no claim's truth depends on the replacement
granularity. -/
def utf8DecodeReplace : List Nat → List Char
  | [] => []
  | b :: bs =>
    if b < 128 then Char.ofNat b :: utf8DecodeReplace bs
    else if 194 ≤ b && b ≤ 223 then
      match bs with
      | [] => [replChar]
      | b1 :: rest =>
        if isCont b1 then Char.ofNat ((b - 192) * 64 + (b1 - 128)) :: utf8DecodeReplace rest
        else replChar :: utf8DecodeReplace (b1 :: rest)
    else if 224 ≤ b && b ≤ 239 then
      match bs with
      | [] => [replChar]
      | b1 :: rest1 =>
        if (if b == 224 then 160 ≤ b1 && b1 ≤ 191
            else if b == 237 then 128 ≤ b1 && b1 ≤ 159
            else isCont b1) then
          match rest1 with
          | [] => [replChar]
          | b2 :: rest2 =>
            if isCont b2 then
              Char.ofNat ((b - 224) * 4096 + (b1 - 128) * 64 + (b2 - 128)) ::
                utf8DecodeReplace rest2
            else replChar :: utf8DecodeReplace (b2 :: rest2)
        else replChar :: utf8DecodeReplace (b1 :: rest1)
    else if 240 ≤ b && b ≤ 244 then
      match bs with
      | [] => [replChar]
      | b1 :: rest1 =>
        if (if b == 240 then 144 ≤ b1 && b1 ≤ 191
            else if b == 244 then 128 ≤ b1 && b1 ≤ 143
            else isCont b1) then
          match rest1 with
          | [] => [replChar]
          | b2 :: rest2 =>
            if isCont b2 then
              match rest2 with
              | [] => [replChar]
              | b3 :: rest3 =>
                if isCont b3 then
                  Char.ofNat ((b - 240) * 262144 + (b1 - 128) * 4096 +
                    (b2 - 128) * 64 + (b3 - 128)) :: utf8DecodeReplace rest3
                else replChar :: utf8DecodeReplace (b3 :: rest3)
            else replChar :: utf8DecodeReplace (b2 :: rest2)
        else replChar :: utf8DecodeReplace (b1 :: rest1)
    else replChar :: utf8DecodeReplace bs

/-- CPython `urllib.parse.unquote_to_bytes` on an ASCII chunk: split on
`%`; a part whose first two characters are hex digits contributes that
byte, any other part keeps its leading `%`. -/
def unquote_to_bytes (cs : List Char) : List Nat :=
  match splitOnChar '%' cs with
  | [] => []
  | h :: t =>
    h.map Char.toNat ++
      (t.map (fun part =>
        match part with
        | c1 :: c2 :: rest =>
          match hexVal? c1, hexVal? c2 with
          | some a, some b => (a * 16 + b) :: rest.map Char.toNat
          | _, _ => 37 :: part.map Char.toNat
        | _ => 37 :: part.map Char.toNat)).flatten

/-- Grouping of a string into maximal runs of ASCII (`true`) and
non-ASCII (`false`) characters, mirroring the `_asciire.split` step of
`urllib.parse.unquote`: only ASCII runs are percent-decoded. -/
def asciiRuns : List Char → List (Bool × List Char)
  | [] => []
  | c :: cs =>
    let t := c.toNat ≤ 127
    match asciiRuns cs with
    | (t2, run) :: rest => if t == t2 then (t, c :: run) :: rest else (t, [c]) :: (t2, run) :: rest
    | [] => [(t, [c])]

/-- CPython `urllib.parse.unquote(s)` with the default
`encoding="utf-8", errors="replace"`: strings without `%` are returned
unchanged; otherwise each ASCII run is percent-decoded to bytes and
UTF-8-decoded with replacement, non-ASCII runs pass through. -/
def unquote (s : String) : String :=
  if s.data.contains '%' = false then s
  else
    String.mk
      (((asciiRuns s.data).map
        (fun pr => if pr.1 then utf8DecodeReplace (unquote_to_bytes pr.2) else pr.2)).flatten)

/-- Body of the loop of `unquote_unreserved` (lines 41-50 of _utils.py)
for one part `parts[i]` of the split on `%`: `h = parts[i][0:2]`; when
`h` is two alphanumerics, `int(h, 16)` either raises `ValueError` (the
alphanumerics are not hex digits) or yields a character that is kept
decoded when unreserved; every other part keeps its `%`. -/
def uu_part : List Char → Except PyErr (List Char)
  | c1 :: c2 :: rest =>
    if pyIsAlnum c1 && pyIsAlnum c2 then
      match hexVal? c1, hexVal? c2 with
      | some a, some b =>
        let c := Char.ofNat (a * 16 + b)
        if UNRESERVED_SET.contains c then .ok (c :: rest)
        else .ok ('%' :: c1 :: c2 :: rest)
      | _, _ => .error .valueError
    else .ok ('%' :: c1 :: c2 :: rest)
  | part => .ok ('%' :: part)

/-- Sequencing of `uu_part` over all parts after the first, propagating
the first `ValueError` as the loop in the source would. -/
def uu_parts : List (List Char) → Except PyErr (List Char)
  | [] => .ok []
  | p :: ps => do
    let a ← uu_part p
    let b ← uu_parts ps
    .ok (a ++ b)

/-- Lines 36-51 of _utils.py: `unquote_unreserved(uri)`.  Splits on `%`
and un-escapes only the unreserved characters; `int(h, 16)` can raise
`ValueError`, which propagates to the caller. -/
def unquote_unreserved (uri : String) : Except PyErr String :=
  match splitOnChar '%' uri.data with
  | [] => .ok uri
  | h :: t => do
    let rest ← uu_parts t
    .ok (String.mk (h ++ rest))

/-- Lines 54-71 of _utils.py: `requote_uri(uri)`.  Quotes the
un-reserved-unquoted URI with `%` safe; when `unquote_unreserved`
raises `ValueError` the original URI is quoted with `%` unsafe. -/
def requote_uri (uri : String) : String :=
  match unquote_unreserved uri with
  | .ok s => quote s safe_with_percent
  | .error _ => quote uri safe_without_percent

/-- Result of `urllib.parse.urlparse`: the six canonical URL components. -/
structure ParseResult where
  scheme : String
  netloc : String
  path : String
  params : String
  query : String
  fragment : String
deriving DecidableEq, Repr

/-- Netloc delimiter test of `_splitnetloc`: the netloc extends from
position 2 to the first of `/`, `?`, `#`. -/
def notNetlocDelim (c : Char) : Bool :=
  !(c == '/') && !(c == '?') && !(c == '#')

/-- CPython 3.9 `urllib.parse.urlsplit(url, scheme)` (allow_fragments
true, as at every call site in _utils.py).  A scheme is recognised when
the text before the first `:` is non-empty and made of scheme
characters (it is lower-cased; `str.lower` is modelled on ASCII).  A
netloc with exactly one of `[`, `]` raises `ValueError("Invalid IPv6
URL")`.  The `_checknetloc` NFKC check, which can only fire on
non-ASCII netlocs, is not modelled. -/
def urlsplit (url : String) (default_scheme : String) :
    Except PyErr (String × String × String × String × String) :=
  let cs := url.data
  let pre := (breakAt ':' cs).1
  let restc := (breakAt ':' cs).2
  let scheme_u : List Char × List Char :=
    if !restc.isEmpty && !pre.isEmpty && pre.all isSchemeChar then
      (pre.map Char.toLower, restc.drop 1)
    else (default_scheme.data, cs)
  let scheme := scheme_u.1
  let u0 := scheme_u.2
  let netloc_u : List Char × List Char :=
    if u0.take 2 = ['/', '/'] then
      ((u0.drop 2).takeWhile notNetlocDelim, (u0.drop 2).dropWhile notNetlocDelim)
    else ([], u0)
  let netloc := netloc_u.1
  let u1 := netloc_u.2
  if (netloc.contains '[' != netloc.contains ']') then .error .valueError
  else
    let u2_frag : List Char × List Char :=
      if u1.contains '#' then ((breakAt '#' u1).1, ((breakAt '#' u1).2).drop 1)
      else (u1, [])
    let u3_query : List Char × List Char :=
      if u2_frag.1.contains '?' then
        ((breakAt '?' u2_frag.1).1, ((breakAt '?' u2_frag.1).2).drop 1)
      else (u2_frag.1, [])
    .ok (String.mk scheme, String.mk netloc, String.mk u3_query.1,
         String.mk u3_query.2, String.mk u2_frag.2)

/-- CPython `urllib.parse.uses_params`: schemes for which `urlparse`
splits `;params` off the path. -/
def uses_params : List String :=
  ["", "ftp", "hdl", "prospero", "http", "imap", "https", "shttp", "rtsp",
   "rtspu", "sip", "sips", "mms", "sftp", "tel"]

/-- CPython `urllib.parse._splitparams(url)`: split `;params` off the
last path segment; called only when `;` occurs in the path. -/
def splitparams (path : List Char) : List Char × List Char :=
  if path.contains '/' then
    let s := match rfindIdx '/' path with | some i => i | none => 0
    let tail := path.drop s
    if tail.contains ';' then
      let j := s + (tail.takeWhile (fun c => !(c == ';'))).length
      (path.take j, path.drop (j + 1))
    else (path, [])
  else
    let j := (path.takeWhile (fun c => !(c == ';'))).length
    (path.take j, path.drop (j + 1))

/-- CPython `urllib.parse.urlparse(url, scheme)` with fragments allowed. -/
def urlparse (url : String) (default_scheme : String) : Except PyErr ParseResult :=
  match urlsplit url default_scheme with
  | .error e => .error e
  | .ok (scheme, netloc, path, query, fragment) =>
    if path.data.contains ';' && uses_params.contains scheme then
      let pp := splitparams path.data
      .ok ⟨scheme, netloc, String.mk pp.1, String.mk pp.2, query, fragment⟩
    else .ok ⟨scheme, netloc, path, "", query, fragment⟩

/-- CPython `urllib.parse.urlunsplit((scheme, netloc, url, query,
fragment))`. -/
def urlunsplit (scheme netloc path query fragment : String) : String :=
  let u0 := path.data
  let u1 :=
    if !netloc.data.isEmpty || u0.take 2 = ['/', '/'] then
      '/' :: '/' :: (netloc.data ++
        (if !u0.isEmpty && !(u0.head? == some '/') then '/' :: u0 else u0))
    else u0
  let u2 := if !scheme.data.isEmpty then scheme.data ++ ':' :: u1 else u1
  let u3 := if !query.data.isEmpty then u2 ++ '?' :: query.data else u2
  let u4 := if !fragment.data.isEmpty then u3 ++ '#' :: fragment.data else u3
  String.mk u4

/-- CPython `urllib.parse.urlunparse`: joins `;params` to the path and
delegates to `urlunsplit`. -/
def urlunparse (r : ParseResult) : String :=
  let path := if !r.params.data.isEmpty then r.path ++ ";" ++ r.params else r.path
  urlunsplit r.scheme r.netloc path r.query r.fragment

/-- Lines 74-86 of _utils.py: `prepend_scheme_if_needed(url, new_scheme)`.
Parses with the new scheme as default and swaps netloc and path when
urlparse found no netloc. -/
def prepend_scheme_if_needed (url new_scheme : String) : Except PyErr String :=
  match urlparse url new_scheme with
  | .error e => .error e
  | .ok r =>
    let np : String × String :=
      if r.netloc = "" then (r.path, r.netloc) else (r.netloc, r.path)
    .ok (urlunparse ⟨r.scheme, np.1, np.2, r.params, r.query, r.fragment⟩)

/-- Lines 89-99 of _utils.py: `urldefragauth(url)`.  Removes the
fragment and the `user:pass@` authentication part, with the same
netlocswap as `prepend_scheme_if_needed`. -/
def urldefragauth (url : String) : Except PyErr String :=
  match urlparse url "" with
  | .error e => .error e
  | .ok r =>
    let np : String × String :=
      if r.netloc = "" then (r.path, r.netloc) else (r.netloc, r.path)
    .ok (urlunparse ⟨r.scheme, String.mk (afterLastAt np.1.data), np.2,
                     r.params, r.query, ""⟩)

/-- Modelled from the spec: `allowed_schemes`, imported by _utils.py
from src/unalix/_config.py, which is not among the sources.  Section
4.2 of the spec fixes the allow-list to http and https. -/
def allowed_schemes : List String := ["http", "https"]

/-- CPython idna codec, `netloc.encode("idna")` at line 223 of
_utils.py, ASCII fast path: the empty string encodes to itself; for an
all-ASCII name each label before the last must have length 1-63 and the
last less than 64, and the name is returned unchanged.  The
nameprep/punycode path for non-ASCII labels is not modelled (no claim
evaluates it); it is approximated by `UnicodeError`. -/
def idna_encode (netloc : String) : Except PyErr String :=
  if netloc = "" then .ok ""
  else if netloc.data.all (fun c => c.toNat ≤ 127) then
    let labels := splitOnChar '.' netloc.data
    if labels.dropLast.all (fun l => !l.isEmpty && l.length < 64) &&
       (match labels.getLast? with | some l => l.length < 64 | none => true) then
      .ok netloc
    else .error .unicodeError
  else .error .unicodeError

/-- Lines 184-227 of _utils.py: `parse_url(url)`.  The input is an
`Option String`: `none` models the non-string argument of the claim
(`isinstance(url, str)` fails), `some s` a string argument.  Empty or
non-string input raises `InvalidURL`; a scheme outside
`allowed_schemes` (after defaulting to http) raises `InvalidScheme`;
errors of the stdlib calls propagate. -/
def parse_url (url : Option String) : Except PyErr String :=
  match url with
  | none => .error .invalidURL
  | some url =>
    if url = "" then .error .invalidURL
    else
      match prepend_scheme_if_needed url "http" with
      | .error e => .error e
      | .ok u1 =>
        match urldefragauth u1 with
        | .error e => .error e
        | .ok u2 =>
          match urlparse u2 "" with
          | .error e => .error e
          | .ok r =>
            if allowed_schemes.contains r.scheme then
              match idna_encode r.netloc with
              | .error e => .error e
              | .ok netloc =>
                .ok (urlunparse ⟨r.scheme, netloc, r.path, r.params, r.query, r.fragment⟩)
            else .error .invalidScheme

/-- Parsing pipeline of `parse_url` up to the `urlparse` at line 216,
whose `scheme` field the allow-list check inspects. -/
def parse_url_parsed (url : String) : Except PyErr ParseResult :=
  match prepend_scheme_if_needed url "http" with
  | .error e => .error e
  | .ok u1 =>
    match urldefragauth u1 with
    | .error e => .error e
    | .ok u2 => urlparse u2 ""

/-- Modelled from the spec: `local_domains`, imported by _utils.py from
src/unalix/_config.py, which is not among the sources.  The spec calls
it the configured local-domain list and the `skip_local` docstring
names localhost as a member. -/
def local_domains : List String := ["localhost"]

/-- One octet of a dotted-quad IPv4 address per CPython
`ipaddress._parse_octet`: 1-3 ASCII decimal digits, value at most 255,
leading zeros rejected (CPython 3.9.5+). -/
def ipv4Octet? (cs : List Char) : Option Nat :=
  if cs.isEmpty || 3 < cs.length || !cs.all Char.isDigit then none
  else if 1 < cs.length && cs.head? == some '0' then none
  else
    let v := cs.foldl (fun a c => a * 10 + (c.toNat - 48)) 0
    if v ≤ 255 then some v else none

/-- CPython `ipaddress.IPv4Address` parsing, packed as one `Nat`.
`ipaddress.ip_address` also tries IPv6, but a URL netloc carries IPv6
literals in brackets, which `ip_address` rejects, so the IPv6 branch is
not modelled. -/
def ipv4? (s : String) : Option Nat :=
  match splitOnChar '.' s.data with
  | [a, b, c, d] =>
    match ipv4Octet? a, ipv4Octet? b, ipv4Octet? c, ipv4Octet? d with
    | some a, some b, some c, some d =>
      some (a * 16777216 + b * 65536 + c * 256 + d)
    | _, _, _, _ => none
  | _ => none

/-- Membership of a packed IPv4 address in a network given as base
address and prefix length. -/
def inNet (ip base prefixLen : Nat) : Bool :=
  ip / 2 ^ (32 - prefixLen) == base / 2 ^ (32 - prefixLen)

/-- CPython 3.9 `IPv4Address.is_private`: membership in the private
network list of `ipaddress._IPv4Constants`. -/
def ipv4_is_private (ip : Nat) : Bool :=
  inNet ip 0 8 || inNet ip 167772160 8 || inNet ip 2130706432 8 ||
  inNet ip 2851995648 16 || inNet ip 2886729728 12 || inNet ip 3221225472 29 ||
  inNet ip 3221226154 31 || inNet ip 3221225984 24 || inNet ip 3232235520 16 ||
  inNet ip 3323068416 15 || inNet ip 3325256704 24 || inNet ip 3405803776 24 ||
  inNet ip 4026531840 4 || inNet ip 4294967295 32

/-- Lines 101-116 of _utils.py: `is_private(url)` — the awaited
semantics of the coroutine.  The netloc is taken from `urlparse` (whose
`ValueError` would propagate); if it parses as an IP address the
address's privacy decides, otherwise membership in `local_domains`. -/
def is_private (url : String) : Except PyErr Bool :=
  match urlparse url "" with
  | .error e => .error e
  | .ok r =>
    match ipv4? r.netloc with
    | some ip => .ok (ipv4_is_private ip)
    | none => .ok (local_domains.contains r.netloc)

/-- One compiled provider of the ruleset, as produced by
`compile_patterns` (lines 392-401 of _utils.py).  The regex data ships
outside src/, so a compiled match is abstracted to `String → Bool`
(`pattern.match(url)`) and a compiled substitution
(`regex.sub(template, url)`) to `String → String`. -/
structure Provider where
  pattern : String → Bool
  complete : Bool
  redirection : Bool
  exceptions : List (String → Bool)
  redirections : List (String → String)
  rules : List (String → String)
  referrals : List (String → String)
  raws : List (String → String)

/-- Option flags of `parse_rules` (lines 420-428 of _utils.py), in
declaration order; every default is `false`. -/
structure Opts where
  allow_referral : Bool
  ignore_rules : Bool
  ignore_exceptions : Bool
  ignore_raw : Bool
  ignore_redirections : Bool
  skip_blocked : Bool
  skip_local : Bool

/-- Application of a list of compiled substitutions in order, the shape
of every `for rule in ...: url = rule.sub(..., url)` loop of
`parse_rules`, including the final global-replacement loop. -/
def subAll (subs : List (String → String)) (url : String) : String :=
  subs.foldl (fun u f => f u) url

/-- Truth value of the expression `is_private(url)` at line 470 of
_utils.py.  `is_private` is declared `async def` and the call site does
not `await` it, so the expression evaluates to a coroutine object, and
a coroutine object is truthy for every argument; the guard
`skip_local and is_private(url)` therefore reduces to `skip_local`. -/
def unawaited_is_private_truthy (_url : String) : Bool := true

/-- Body of the provider loop of `parse_rules` (lines 473-500 of
_utils.py) for one provider: skip when `skip_blocked` and the provider
is complete; otherwise, when `urlPattern` matches, skip the provider if
(unless `ignore_exceptions`) some exception matches, else apply
redirections (with the unquote/requote pass when they changed the
string), rules, referrals and raw rules under their flags. -/
def applyProvider (o : Opts) (url : String) (p : Provider) : String :=
  if o.skip_blocked && p.complete then url
  else if p.pattern url then
    if !o.ignore_exceptions && p.exceptions.any (fun e => e url) then url
    else
      let url1 :=
        if !o.ignore_redirections then
          let u := subAll p.redirections url
          if u = url then u else requote_uri (unquote u)
        else url
      let url2 := if !o.ignore_rules then subAll p.rules url1 else url1
      let url3 := if !o.allow_referral then subAll p.referrals url2 else url2
      if !o.ignore_raw then subAll p.raws url3 else url3
  else url

/-- Phases of the provider body after the redirections step: rules,
referrals, raw rules, each under its flag. -/
def laterPhases (o : Opts) (p : Provider) (url1 : String) : String :=
  let url2 := if !o.ignore_rules then subAll p.rules url1 else url1
  let url3 := if !o.allow_referral then subAll p.referrals url2 else url2
  if !o.ignore_raw then subAll p.raws url3 else url3

/-- Lines 420-505 of _utils.py: `parse_rules(url, ...)`, parametric in
the compiled ruleset (`patterns` and the global `replacements`, both
loaded at import time from files outside src/).  The first guard is
`skip_local and is_private(url)` with the un-awaited `is_private` call
(see `unawaited_is_private_truthy`); then the provider loop runs and
finally every global replacement is applied in order. -/
def parse_rules (patterns : List Provider) (replacements : List (String → String))
    (o : Opts) (url : String) : String :=
  if o.skip_local && unawaited_is_private_truthy url then url
  else subAll replacements (patterns.foldl (applyProvider o) url)

/-- Lines 229-252 of _utils.py: `clear_url(url, **kwargs)` =
`parse_url` then `parse_rules`, with errors propagating. -/
def clear_url (patterns : List Provider) (replacements : List (String → String))
    (o : Opts) (url : Option String) : Except PyErr String :=
  match parse_url url with
  | .error e => .error e
  | .ok formated => .ok (parse_rules patterns replacements o formated)

/-- CPython `posixpath.dirname`. -/
def posix_dirname (p : String) : String :=
  let cs := p.data
  let i := match rfindIdx '/' cs with | some k => k + 1 | none => 0
  let head := cs.take i
  if !head.isEmpty && !head.all (fun c => c == '/') then
    String.mk ((head.reverse.dropWhile (fun c => c == '/')).reverse)
  else String.mk head

/-- CPython `posixpath.join` for two components. -/
def posix_join (a b : String) : String :=
  if b.data.head? == some '/' then b
  else if a = "" || a.data.getLast? == some '/' then a ++ b
  else a ++ "/" ++ b

/-- Python `str.startswith` for a literal prefix. -/
def py_startswith (s pre : String) : Bool :=
  pre.data.isPrefixOf s.data

/-- Location dispatch of `unshort_url` (lines 315-328 of _utils.py):
the URL string handed to `parse_rules` for the next hop, given the
current parsed URL's scheme, netloc and path and the redirect
response's Location header.  An absolute Location is used as is; a
Location starting with `/` becomes the path component of a URL rebuilt
on the current scheme and netloc; any other Location is joined to the
directory of the current path. -/
def redirect_target (scheme netloc path location : String) : String :=
  if py_startswith location "http://" || py_startswith location "https://" then
    location
  else if py_startswith location "/" then
    urlunparse ⟨scheme, netloc, location, "", "", ""⟩
  else
    urlunparse ⟨scheme, netloc, posix_join (posix_dirname path) location, "", "", ""⟩

/-- Default option record of `parse_rules` and `clear_url`: every flag
defaults to False in the source. -/
def defaultOpts : Opts := ⟨false, false, false, false, false, false, false⟩

/-- Concrete one-substitution provider used to evaluate the engine on a
concrete input: its urlPattern matches every URL and its single rules
substitution stands for a compiled field-removal regex that deletes
`utm_source=1` from the example URL. -/
def demoStripProvider : Provider :=
  ⟨fun _ => true, false, false, [], [],
   [fun u => if u = "http://example.com/?utm_source=1" then "http://example.com/?" else u],
   [], []⟩

/-- Concrete provider whose urlPattern matches every URL, whose single
exception regex also matches every URL, and whose rules substitution
would visibly rewrite the URL if it were ever applied. -/
def demoExcProvider : Provider :=
  ⟨fun _ => true, false, false, [fun _ => true], [],
   [fun _ => "http://changed.example/"], [], []⟩

/-- Concrete provider carrying a non-trivial entry in every sub-rule
list, to exhibit that all of them are skipped under the skipping
options. -/
def demoAllPhaseProvider : Provider :=
  ⟨fun _ => true, true, false, [fun _ => true], [fun _ => "http://redir.example/"],
   [fun _ => "http://rules.example/"], [fun _ => "http://referral.example/"],
   [fun _ => "http://raw.example/"]⟩

/-- Concrete provider with one redirections substitution, standing for
a compiled `{redirection}.*` regex replaced by its first capture group:
it unwraps the example wrapper URL to the embedded destination. -/
def demoRedirProvider : Provider :=
  ⟨fun _ => true, false, false, [],
   [fun _ => "http://dest.example/"], [], [], []⟩

/-- Concrete global replacement used to evaluate the replacement phase
on concrete input (a compiled `(pattern, template)` pair whose `sub`
appends a fragment marker). -/
def demoReplacement : String → String := fun u => u ++ "#r"

end Unalix

namespace Unalix

theorem subAll_append (rs₁ rs₂ : List (String → String)) (u : String) :
    subAll (rs₁ ++ rs₂) u = subAll rs₂ (subAll rs₁ u) := by
  simp [subAll, List.foldl_append]

theorem applyProvider_all_flags_skip (g : Bool) (p : Provider) (url : String) :
    applyProvider ⟨true, true, true, true, true, true, g⟩ url p = url := by
  unfold applyProvider
  cases hc : p.complete <;> cases hp : p.pattern url <;> simp [hc, hp]

/-- C2: with `skip_local` set, `parse_rules` returns the input URL
verbatim for every URL, not just private/local ones, because the
`is_private` coroutine is never awaited: the guard at line 470 is
always truthy.  The conjuncts: (1) every URL is returned verbatim
under `skip_local`, whatever the ruleset; (2) the example host is not
private under the awaited `is_private` semantics; (3) the engine with
`skip_local` still returns it verbatim; (4) whereas the normal
cleaning pipeline (claimed to run for non-private hosts) would have
changed it. -/
theorem parse_rules_skip_local_fires_for_every_url :
    (∀ (ps : List Provider) (rs : List (String → String)) (a b c d e f : Bool)
        (url : String), parse_rules ps rs ⟨a, b, c, d, e, f, true⟩ url = url)
    ∧ is_private "http://example.com/?utm_source=1" = .ok false
    ∧ parse_rules [demoStripProvider] [] ⟨false, false, false, false, false, false, true⟩
        "http://example.com/?utm_source=1" = "http://example.com/?utm_source=1"
    ∧ parse_rules [demoStripProvider] [] ⟨false, false, false, false, false, false, false⟩
        "http://example.com/?utm_source=1" ≠ "http://example.com/?utm_source=1" := by
  refine ⟨?_, rfl, rfl, by decide⟩
  intro ps rs a b c d e f url
  simp [parse_rules, unawaited_is_private_truthy]

/-- C3: a provider whose urlPattern matches but one of whose exception
regexes also matches (with `ignore_exceptions` false) is skipped
entirely: none of its sub-rules run, and the URL reaching the rest of
the provider list is the URL as it was before this provider. -/
theorem provider_exception_short_circuit
    (a b d e f g : Bool) (p : Provider) (ps : List Provider)
    (rs : List (String → String)) (url : String)
    (hm : p.pattern url = true)
    (hx : p.exceptions.any (fun ex => ex url) = true) :
    parse_rules (p :: ps) rs ⟨a, b, false, d, e, f, g⟩ url
      = parse_rules ps rs ⟨a, b, false, d, e, f, g⟩ url := by
  have hstep : applyProvider ⟨a, b, false, d, e, f, g⟩ url p = url := by
    unfold applyProvider
    cases hc : (f && p.complete) <;> simp [hc, hm, hx]
  simp [parse_rules, List.foldl_cons, hstep]

theorem provider_exception_short_circuit_witness :
    parse_rules [demoExcProvider] [] defaultOpts "http://x.example/"
      = parse_rules [] [] defaultOpts "http://x.example/"
    ∧ parse_rules [demoExcProvider] [] defaultOpts "http://x.example/"
      = "http://x.example/" :=
  ⟨provider_exception_short_circuit false false false false false false
      demoExcProvider [] [] "http://x.example/" rfl rfl,
   rfl⟩

/-- C4: in the redirect-resolution loop, a Location starting with `//`
is caught by the `location.startswith("/")` branch and used as the
path component on the current scheme and netloc, so the next URL keeps
the current authority and carries the whole Location as its path —
instead of the protocol-relative resolution `scheme + ":" + location`
that the claim and the repository's own test fixture
(`/i-dont-know-its-name-redirect`) expect. -/
theorem protocol_relative_location_used_as_path :
    redirect_target "http" "127.2.0.1:56885" "/i-dont-know-its-name-redirect"
        "//127.2.0.1:56885/redirect-to-tracking"
      = "http://127.2.0.1:56885//127.2.0.1:56885/redirect-to-tracking"
    ∧ "http" ++ ":" ++ "//127.2.0.1:56885/redirect-to-tracking"
      = "http://127.2.0.1:56885/redirect-to-tracking"
    ∧ "http://127.2.0.1:56885//127.2.0.1:56885/redirect-to-tracking"
      ≠ "http://127.2.0.1:56885/redirect-to-tracking" :=
  ⟨by decide, by decide, by decide⟩

/-- C5: with `skip_local` unset (its default), the result of
`parse_rules` is the provider-phase output passed through every global
replacement in list order: each replacement pair `r` operates on the
string produced by the provider loop and the replacements before it,
never on the raw input, and no provider gating or option flag guards
the replacement loop. -/
theorem global_replacements_apply_to_post_provider_string
    (pats : List Provider) (rs₁ rs₂ : List (String → String))
    (r : String → String) (a b c d e f : Bool) (url : String) :
    parse_rules pats (rs₁ ++ r :: rs₂) ⟨a, b, c, d, e, f, false⟩ url
      = subAll rs₂ (r (subAll rs₁
          (pats.foldl (applyProvider ⟨a, b, c, d, e, f, false⟩) url))) := by
  simp [parse_rules, subAll, List.foldl_append]

/-- C6: inside one matched, non-skipped provider with
`ignore_redirections` unset, when the redirections substitutions
changed the URL the provider continues with
`requote_uri(unquote(...))` of the changed string — one percent-decode
followed by the canonicalizing quote pass — and when they left it
unchanged, no decode/requote happens and the later phases see the URL
itself. -/
theorem redirections_change_triggers_single_unquote_requote
    (a b c d f g : Bool) (p : Provider) (url : String)
    (hb : (f && p.complete) = false)
    (hm : p.pattern url = true)
    (hx : (!c && p.exceptions.any (fun ex => ex url)) = false) :
    (subAll p.redirections url ≠ url →
      applyProvider ⟨a, b, c, d, false, f, g⟩ url p
        = laterPhases ⟨a, b, c, d, false, f, g⟩ p
            (requote_uri (unquote (subAll p.redirections url))))
    ∧ (subAll p.redirections url = url →
      applyProvider ⟨a, b, c, d, false, f, g⟩ url p
        = laterPhases ⟨a, b, c, d, false, f, g⟩ p url) := by
  constructor
  · intro hne
    unfold applyProvider laterPhases
    simp [hb, hm, hx, hne]
  · intro heq
    unfold applyProvider laterPhases
    simp [hb, hm, hx, heq]

theorem redirections_change_triggers_single_unquote_requote_witness :
    applyProvider defaultOpts "http://wrap.example/?u=dest" demoRedirProvider
      = laterPhases defaultOpts demoRedirProvider
          (requote_uri (unquote (subAll demoRedirProvider.redirections
            "http://wrap.example/?u=dest")))
    ∧ requote_uri (unquote (subAll demoRedirProvider.redirections
        "http://wrap.example/?u=dest")) = "http://dest.example/" :=
  ⟨(redirections_change_triggers_single_unquote_requote false false false false
      false false demoRedirProvider "http://wrap.example/?u=dest"
      rfl rfl rfl).1 (by decide),
   by decide⟩

/-- C7: `clear_url` fails with `InvalidURL` on the empty string and on
a non-string input, before any rule is applied. -/
theorem clear_url_empty_and_none_raise_invalid_url
    (ps : List Provider) (rs : List (String → String)) (o : Opts) :
    clear_url ps rs o none = .error .invalidURL
    ∧ clear_url ps rs o (some "") = .error .invalidURL :=
  ⟨rfl, rfl⟩

/-- C8, counterexample: `clear_url("ftp://[")` — a URL whose scheme
after defaulting is `ftp`, outside the allow-list — does not raise
`InvalidScheme`: `urlparse` raises `ValueError("Invalid IPv6 URL")`
first (inside `prepend_scheme_if_needed`) and that error propagates, so
the claim's universal statement fails at this input. -/
theorem clear_url_unparseable_scheme_counterexample :
    clear_url [] [] defaultOpts (some "ftp://[") = .error .valueError
    ∧ PyErr.valueError ≠ PyErr.invalidScheme :=
  ⟨rfl, by decide⟩

/-- C8, amended: for every non-empty input URL that the parsing
pipeline of `parse_url` accepts, whose scheme after defaulting to http
lies outside the `{http, https}` allow-list, `clear_url` fails with
`InvalidScheme`; in particular `clear_url("ftp://example.com")` does. -/
theorem clear_url_invalid_scheme_for_parseable_urls
    (url : String) (r : ParseResult) (ps : List Provider)
    (rs : List (String → String)) (o : Opts)
    (h0 : url ≠ "")
    (h1 : parse_url_parsed url = .ok r)
    (h2 : allowed_schemes.contains r.scheme = false) :
    clear_url ps rs o (some url) = .error .invalidScheme := by
  unfold parse_url_parsed at h1
  unfold clear_url parse_url
  dsimp only
  rw [if_neg h0]
  cases hp : prepend_scheme_if_needed url "http" with
  | error e => rw [hp] at h1; exact absurd h1 (by simp)
  | ok u1 =>
    rw [hp] at h1
    dsimp only at h1 ⊢
    cases hd : urldefragauth u1 with
    | error e => rw [hd] at h1; exact absurd h1 (by simp)
    | ok u2 =>
      rw [hd] at h1
      dsimp only at h1 ⊢
      rw [h1]
      dsimp only
      rw [h2]
      rfl

theorem clear_url_invalid_scheme_for_parseable_urls_witness :
    clear_url [] [] defaultOpts (some "ftp://example.com") = .error .invalidScheme :=
  clear_url_invalid_scheme_for_parseable_urls "ftp://example.com"
    ⟨"ftp", "example.com", "", "", "", ""⟩ [] [] defaultOpts
    (by decide) rfl rfl

/-- C9: with every skipping option set (`allow_referral`,
`ignore_rules`, `ignore_exceptions`, `ignore_raw`,
`ignore_redirections`, `skip_blocked` all true; `skip_local` at its
default false) and a non-private host, `parse_rules` still applies the
whole global replacement list, in order, to the URL: no option flag
disables the replacement phase. -/
theorem global_replacements_not_disabled_by_flags
    (pats : List Provider) (rs : List (String → String)) (url : String)
    (_hpriv : is_private url = .ok false) :
    parse_rules pats rs ⟨true, true, true, true, true, true, false⟩ url
      = subAll rs url := by
  have hfold : ∀ (l : List Provider) (u : String),
      List.foldl (applyProvider ⟨true, true, true, true, true, true, false⟩) u l = u := by
    intro l
    induction l with
    | nil => intro u; rfl
    | cons p t ih =>
      intro u
      simp [List.foldl_cons, applyProvider_all_flags_skip, ih]
  simp [parse_rules, hfold]

theorem global_replacements_not_disabled_by_flags_witness :
    parse_rules [demoAllPhaseProvider] [demoReplacement]
        ⟨true, true, true, true, true, true, false⟩ "http://example.com/a"
      = subAll [demoReplacement] "http://example.com/a"
    ∧ subAll [demoReplacement] "http://example.com/a" = "http://example.com/a#r" :=
  ⟨global_replacements_not_disabled_by_flags [demoAllPhaseProvider] [demoReplacement]
      "http://example.com/a" rfl,
   rfl⟩

/-- C10: `requote_uri` is total: every input yields one of the two
quoted forms (first conjunct), and whenever the unquote pass raises
`ValueError` — which happens, e.g. on a `%` followed by alphanumerics
that are not hex digits — the error is caught and the original URI is
quoted with `%` outside the safe set (so stray percent signs get
quoted), never re-raised. -/
theorem requote_uri_total_on_strings :
    (∀ uri : String,
        requote_uri uri = quote uri safe_without_percent
        ∨ ∃ s, unquote_unreserved uri = .ok s
            ∧ requote_uri uri = quote s safe_with_percent)
    ∧ (∀ (uri : String) (e : PyErr), unquote_unreserved uri = .error e →
        requote_uri uri = quote uri safe_without_percent)
    ∧ unquote_unreserved "%4z" = .error .valueError
    ∧ safe_without_percent.contains '%' = false
    ∧ safe_with_percent.contains '%' = true := by
  refine ⟨?_, ?_, rfl, rfl, rfl⟩
  · intro uri
    cases h : unquote_unreserved uri with
    | error e => exact Or.inl (by simp [requote_uri, h])
    | ok s => exact Or.inr ⟨s, rfl, by simp [requote_uri, h]⟩
  · intro uri e h
    simp [requote_uri, h]

theorem requote_uri_total_on_strings_witness :
    requote_uri "%4z" = quote "%4z" safe_without_percent
    ∧ requote_uri "%4z" = "%254z" :=
  ⟨requote_uri_total_on_strings.2.1 "%4z" PyErr.valueError rfl, by decide⟩

end Unalix
